import Mathlib

/-!
Shallow embedding of the document-analysis agent's core
(`document_memory.py` and the tool functions of `document_agent.py`).

JSON values produced by `json.loads` are modelled by the inductive
`JsonVal` (integers only for numbers: float literals are outside the
model, no claim exercises them).  Python dicts are modelled as
association lists, the on-disk file system as an association list from
path to content (a missing key models a missing or unreadable file),
and each tool's language-model round trip as an `Except String String`
argument: `.ok reply` is the model's reply text, `.error e` is an
exception raised by the client call (caught by the tool's outer
`except Exception` handler).
-/

inductive JsonVal : Type where
  | jnull : JsonVal
  | jbool : Bool → JsonVal
  | jnum : Int → JsonVal
  | jstr : String → JsonVal
  | jarr : List JsonVal → JsonVal
  | jobj : List (String × JsonVal) → JsonVal

/-- Python dict lookup on an association list (first binding wins; our
`upsert` keeps keys unique, matching dict semantics). -/
def alookup {α : Type} (k : String) : List (String × α) → Option α
  | [] => none
  | (k', v) :: rest => if k' = k then some v else alookup k rest

/-- Python dict assignment `d[k] = v`: replaces the binding in place if the
key exists, otherwise appends it. -/
def upsert {α : Type} (k : String) (v : α) : List (String × α) → List (String × α)
  | [] => [(k, v)]
  | (k', v') :: rest => if k' = k then (k, v) :: rest else (k', v') :: upsert k v rest

theorem alookup_upsert_self {α : Type} (k : String) (v : α) (l : List (String × α)) :
    alookup k (upsert k v l) = some v := by
  induction l with
  | nil => simp [upsert, alookup]
  | cons p rest ih =>
    by_cases h : p.1 = k
    · simp [upsert, h, alookup]
    · simp [upsert, h, alookup, ih]

theorem alookup_mem {α : Type} {k : String} {v : α} {l : List (String × α)} :
    alookup k l = some v → (k, v) ∈ l := by
  induction l with
  | nil => simp [alookup]
  | cons p rest ih =>
    intro h
    obtain ⟨k', v'⟩ := p
    by_cases hk : k' = k
    · simp [alookup, hk] at h
      subst hk
      subst h
      exact List.mem_cons_self _ _
    · simp only [alookup] at h
      rw [if_neg hk] at h
      exact List.mem_cons_of_mem _ (ih h)

/-! ## Document store (`document_memory.py`) -/

/-- Metadata of a document: an open mapping from string keys to
JSON-serializable values. -/
abbrev Metadata := List (String × JsonVal)

/-- One record of the index: `{"url": ..., "path": ..., "metadata": ...}`. -/
structure DocInfo where
  url : String
  path : String
  metadata : Metadata

/-- The persistent state of `DocumentMemory`: the index (keyed by document
id) and the content files on disk (keyed by path; a path absent from
`files` models a content file that is missing or unreadable, so that
`open` raises). -/
structure Store where
  storage_dir : String
  index : List (String × DocInfo)
  files : List (String × String)

/-- `_generate_doc_id`: `hashlib.md5(url.encode()).hexdigest()`.  The md5 hex
digest is a deterministic function of the URL; it is modelled by the URL
itself (a deterministic key — hash collisions are outside the model, and no
claim depends on the concrete digest format). -/
def generate_doc_id (url : String) : String := url

/-- The result of a successful `DocumentMemory.get_document`. -/
structure Document where
  id : String
  url : String
  content : String
  metadata : Metadata

/-- `DocumentMemory.store_document`: writes the content file at
`storage_dir/<id>.txt`, updates the index record for the id, rewrites the
index, and returns the id.  (Python's `metadata or {}` equals `metadata`
for every dict, since an empty dict is falsy and replaced by `{}`.) -/
def store_document (s : Store) (url content : String) (metadata : Metadata) :
    Store × String :=
  let doc_id := generate_doc_id url
  let doc_path := s.storage_dir ++ "/" ++ doc_id ++ ".txt"
  ({ s with
      files := upsert doc_path content s.files,
      index := upsert doc_id ⟨url, doc_path, metadata⟩ s.index },
   doc_id)

/-- `DocumentMemory.get_document`: `None` if the id is not in the index;
otherwise reads the content file at the recorded path, and `None` when
that read raises (the exception is caught, logged and swallowed). -/
def get_document (s : Store) (doc_id : String) : Option Document :=
  match alookup doc_id s.index with
  | none => none
  | some info =>
    match alookup info.path s.files with
    | some content => some ⟨doc_id, info.url, content, info.metadata⟩
    | none => none

/-- `DocumentMemory.get_document_by_url`: derives the id and delegates. -/
def get_document_by_url (s : Store) (url : String) : Option Document :=
  get_document s (generate_doc_id url)

/-- One entry of `DocumentMemory.list_documents`. -/
structure DocListing where
  id : String
  url : String
  metadata : Metadata

/-- `DocumentMemory.list_documents`: `{id, url, metadata}` for every index
entry, built from the index alone. -/
def list_documents (s : Store) : List DocListing :=
  s.index.map fun p => ⟨p.1, p.2.url, p.2.metadata⟩

/-- Storing and then retrieving by the same URL returns exactly the stored
content and metadata (the content file is written at the same path the
index records). -/
theorem get_by_url_store (s : Store) (u c : String) (m : Metadata) :
    get_document_by_url (store_document s u c m).1 u =
      some ⟨generate_doc_id u, u, c, m⟩ := by
  simp [get_document_by_url, get_document, store_document,
    alookup_upsert_self]

/-- Claim C1: for every URL `u`, content `c` and metadata `m`,
`store_document(u, c, m)` followed by `get_document_by_url(u)` returns a
document with content `c` and metadata `m`; storing `u` twice leaves only
the latest content and metadata visible (last write wins). -/
theorem store_then_get_last_write_wins (s : Store) (u c : String) (m : Metadata) :
    get_document_by_url (store_document s u c m).1 u =
      some ⟨generate_doc_id u, u, c, m⟩ ∧
    ∀ c' m', get_document_by_url
        (store_document (store_document s u c' m').1 u c m).1 u =
      some ⟨generate_doc_id u, u, c, m⟩ := by
  exact ⟨get_by_url_store s u c m, fun c' m' => get_by_url_store _ u c m⟩

/-! ## String helpers modelling Python's `str` and `re` operations -/

/-- Whitespace stripped by Python's `str.strip()`. -/
def py_ws (c : Char) : Bool :=
  c = ' ' || c = '\t' || c = '\n' || c = '\r' || c = '\x0b' || c = '\x0c'

/-- Python `str.strip()`: removes whitespace from both ends. -/
def py_strip (s : String) : String :=
  String.mk (((s.data.dropWhile py_ws).reverse.dropWhile py_ws).reverse)

/-- Split on a one-character separator; like Python `str.split(sep)`, a
string with no separator yields itself as the only part, and empty parts
are kept. -/
def split_char (sep : Char) : List Char → List (List Char)
  | [] => [[]]
  | c :: rest =>
    if c = sep then [] :: split_char sep rest
    else
      match split_char sep rest with
      | [] => [[c]]
      | h :: t => (c :: h) :: t

/-- Python `str.split(sep)` for a one-character separator. -/
def py_split (sep : Char) (s : String) : List String :=
  (split_char sep s.data).map String.mk

def chars_start_with : List Char → List Char → Bool
  | [], _ => true
  | _ :: _, [] => false
  | p :: ps, c :: cs => p = c && chars_start_with ps cs

/-- Python `str.startswith(p)`. -/
def py_startswith (p s : String) : Bool :=
  chars_start_with p.data s.data

/-- Python `str.endswith(p)`. -/
def py_endswith (p s : String) : Bool :=
  chars_start_with p.data.reverse s.data.reverse

/-- Index of the first occurrence of `c`. -/
def first_idx_of (c : Char) (cs : List Char) : Option Nat :=
  cs.findIdx? (· = c)

/-- Index of the last occurrence of `c`. -/
def last_idx_of (c : Char) (cs : List Char) : Option Nat :=
  match first_idx_of c cs.reverse with
  | none => none
  | some k => some (cs.length - 1 - k)

/-- `re.search(r"\[.*\]", s, re.DOTALL)`: the leftmost-greedy match runs from
the first `[` that has some `]` strictly after it, to the last `]` of the
whole string; `match.group(0)` is that span.  Equivalently: let `j` be the
last index of `]`; the match starts at the first `[` before `j`. -/
def re_search_bracket (s : String) : Option String :=
  let cs := s.data
  match last_idx_of ']' cs with
  | none => none
  | some j =>
    match first_idx_of '[' (cs.take j) with
    | none => none
    | some i => some (String.mk ((cs.drop i).take (j + 1 - i)))

/-- `re.findall(r"\"([^\"]+)\"", s)` on a list of characters: all
non-overlapping quoted spans with a non-empty body, captured bodies only.
Fuel decreases on every step; `length + 1` fuel always suffices. -/
def findall_quoted_go : Nat → List Char → List String
  | 0, _ => []
  | _, [] => []
  | fuel+1, '"' :: rest =>
    let inner := rest.takeWhile (fun c => c ≠ '"')
    if inner.isEmpty then
      findall_quoted_go fuel rest
    else
      match rest.drop inner.length with
      | '"' :: rest2 => String.mk inner :: findall_quoted_go fuel rest2
      | _ => []
  | fuel+1, _ :: rest => findall_quoted_go fuel rest

/-- `re.findall(r"\"([^\"]+)\"", s)`. -/
def findall_quoted (s : String) : List String :=
  findall_quoted_go (s.data.length + 1) s.data

/-- `re.sub(r"<[^>]+>", "", s)` on characters: each `<` with at least one
non-`>` character before the next `>` is deleted together with that span;
a `<` with no following `>` (or immediately followed by `>`) is kept. -/
def strip_tags_go : Nat → List Char → List Char
  | 0, cs => cs
  | _, [] => []
  | fuel+1, '<' :: rest =>
    let inner := rest.takeWhile (fun c => c ≠ '>')
    if inner.isEmpty then
      '<' :: strip_tags_go fuel rest
    else
      match rest.drop inner.length with
      | '>' :: rest2 => strip_tags_go fuel rest2
      | _ => '<' :: rest
  | fuel+1, c :: rest => c :: strip_tags_go fuel rest

/-- `re.sub(r"<[^>]+>", "", s)`: delete every `<...>` tag span. -/
def strip_tags (s : String) : String :=
  String.mk (strip_tags_go (s.data.length + 1) s.data)

/-! ## A model of `json.loads`

Recursive-descent parser for JSON, following Python's `json.loads` on the
fragment the tools exercise: objects, arrays, strings with the standard
single-character escapes (`\uXXXX` escapes and float literals are outside
the model; no claim exercises them), integers, `true`/`false`/`null`,
with JSON whitespace between tokens and nothing but whitespace allowed
after the value.  All recursion is fuelled; the fuel passed by
`json_loads` is more than sufficient for any input. -/

/-- JSON structural whitespace. -/
def json_ws (c : Char) : Bool :=
  c = ' ' || c = '\t' || c = '\n' || c = '\r'

def skip_ws (cs : List Char) : List Char :=
  cs.dropWhile json_ws

def is_digit (c : Char) : Bool :=
  '0' ≤ c && c ≤ '9'

def digits_to_nat (ds : List Char) : Nat :=
  ds.foldl (fun a c => a * 10 + (c.toNat - '0'.toNat)) 0

/-- Parse a JSON integer literal (no leading zeros; a following `.`, `e` or
`E` would start a float literal, which is outside the model). -/
def parse_int (cs : List Char) : Option (Nat × List Char) :=
  let ds := cs.takeWhile is_digit
  match ds with
  | [] => none
  | d :: ds' =>
    if d = '0' && !ds'.isEmpty then none
    else
      match cs.drop ds.length with
      | '.' :: _ => none
      | 'e' :: _ => none
      | 'E' :: _ => none
      | rest => some (digits_to_nat ds, rest)

/-- The JSON single-character string escapes. -/
def escape_char : Char → Option Char
  | '"' => some '"'
  | '\\' => some '\\'
  | '/' => some '/'
  | 'b' => some (Char.ofNat 8)
  | 'f' => some (Char.ofNat 12)
  | 'n' => some '\n'
  | 'r' => some '\r'
  | 't' => some '\t'
  | _ => none

/-- Parse the body of a JSON string after the opening quote, up to and
including the closing quote. -/
def parse_string_go : Nat → List Char → Option (List Char × List Char)
  | 0, _ => none
  | _, [] => none
  | _+1, '"' :: rest => some ([], rest)
  | fuel+1, '\\' :: rest =>
    match rest with
    | [] => none
    | e :: rest1 =>
      match escape_char e with
      | none => none
      | some c =>
        match parse_string_go fuel rest1 with
        | none => none
        | some (s, r) => some (c :: s, r)
  | fuel+1, c :: rest =>
    match parse_string_go fuel rest with
    | none => none
    | some (s, r) => some (c :: s, r)

mutual

/-- Parse one JSON value, returning it with the unconsumed remainder. -/
def parse_value : Nat → List Char → Option (JsonVal × List Char)
  | 0, _ => none
  | fuel+1, cs =>
    match skip_ws cs with
    | [] => none
    | '{' :: rest =>
      match skip_ws rest with
      | '}' :: rest1 => some (.jobj [], rest1)
      | _ =>
        match parse_obj_rest fuel rest with
        | some (kvs, r) => some (.jobj kvs, r)
        | none => none
    | '[' :: rest =>
      match skip_ws rest with
      | ']' :: rest1 => some (.jarr [], rest1)
      | _ =>
        match parse_arr_rest fuel rest with
        | some (vs, r) => some (.jarr vs, r)
        | none => none
    | '"' :: rest =>
      match parse_string_go (fuel+1) rest with
      | some (s, r) => some (.jstr (String.mk s), r)
      | none => none
    | 't' :: 'r' :: 'u' :: 'e' :: rest => some (.jbool true, rest)
    | 'f' :: 'a' :: 'l' :: 's' :: 'e' :: rest => some (.jbool false, rest)
    | 'n' :: 'u' :: 'l' :: 'l' :: rest => some (.jnull, rest)
    | '-' :: rest =>
      match parse_int rest with
      | some (n, r) => some (.jnum (-(n : Int)), r)
      | none => none
    | c :: rest =>
      if is_digit c then
        match parse_int (c :: rest) with
        | some (n, r) => some (.jnum (n : Int), r)
        | none => none
      else none

/-- Parse the members of a non-empty JSON array after the opening `[`. -/
def parse_arr_rest : Nat → List Char → Option (List JsonVal × List Char)
  | 0, _ => none
  | fuel+1, cs =>
    match parse_value fuel cs with
    | none => none
    | some (v, rest) =>
      match skip_ws rest with
      | ',' :: rest1 =>
        match parse_arr_rest fuel rest1 with
        | none => none
        | some (vs, rest2) => some (v :: vs, rest2)
      | ']' :: rest1 => some ([v], rest1)
      | _ => none

/-- Parse the members of a non-empty JSON object after the opening `{`. -/
def parse_obj_rest : Nat → List Char → Option (List (String × JsonVal) × List Char)
  | 0, _ => none
  | fuel+1, cs =>
    match skip_ws cs with
    | '"' :: rest =>
      match parse_string_go (fuel+1) rest with
      | none => none
      | some (key, rest1) =>
        match skip_ws rest1 with
        | ':' :: rest2 =>
          match parse_value fuel rest2 with
          | none => none
          | some (v, rest3) =>
            match skip_ws rest3 with
            | ',' :: rest4 =>
              match parse_obj_rest fuel rest4 with
              | none => none
              | some (kvs, rest5) => some ((String.mk key, v) :: kvs, rest5)
            | '}' :: rest4 => some ([(String.mk key, v)], rest4)
            | _ => none
        | _ => none
    | _ => none

end

/-- `json.loads`: parse the whole string as one JSON value; anything but
whitespace after the value is an error. -/
def json_loads (s : String) : Option JsonVal :=
  match parse_value (2 * s.data.length + 2) s.data with
  | some (v, rest) => if (skip_ws rest).isEmpty then some v else none
  | none => none

/-! ## Python `str()` on parsed JSON values -/

/-- A single-quote character, as used by Python `repr`. -/
def py_sq : String := String.singleton (Char.ofNat 39)

mutual

/-- Python `repr()` of a value returned by `json.loads` (containers print
their elements with `repr`; the quote-selection and escaping subtleties of
Python string `repr` are approximated by plain single quotes — no claim
exercises them). -/
def py_repr : JsonVal → String
  | .jnull => "None"
  | .jbool true => "True"
  | .jbool false => "False"
  | .jnum n => toString n
  | .jstr s => py_sq ++ s ++ py_sq
  | .jarr xs => "[" ++ ", ".intercalate (py_repr_list xs) ++ "]"
  | .jobj kvs => "\x7b" ++ ", ".intercalate (py_repr_obj kvs) ++ "\x7d"

def py_repr_list : List JsonVal → List String
  | [] => []
  | v :: vs => py_repr v :: py_repr_list vs

def py_repr_obj : List (String × JsonVal) → List String
  | [] => []
  | (k, v) :: kvs => (py_sq ++ k ++ py_sq ++ ": " ++ py_repr v) :: py_repr_obj kvs

end

/-- Python `str()` of a value returned by `json.loads`. -/
def py_str : JsonVal → String
  | .jstr s => s
  | v => py_repr v

/-! ## Extraction tool (`extract_info` in `document_agent.py`) -/

/-- `information = json.loads(match.group(0))` binds whatever value the
parse produced.  The span handed over by `re.search(r"\[.*\]", ...)` starts
with `[`, so a successful parse is always an array and the second case is
unreachable there; it is kept so the function is total on all values. -/
def as_list : JsonVal → List JsonVal
  | .jarr xs => xs
  | v => [v]

/-- The line-splitting fallback of `extract_info`: split on newlines, strip
each line, keep the non-empty ones that do not start or end with a
code-fence marker. -/
def extract_lines (result_text : String) : List String :=
  ((py_split '\n' result_text).map py_strip).filter
    (fun l => !(l = "") && !(py_startswith "```" l) && !(py_endswith "```" l))

/-- The parsing chain of `extract_info` applied to the model's reply text:

* a `[...]` span found: `json.loads` it; on `JSONDecodeError` fall back to
  the line split, and to the comma split if that is empty;
* no span: `json.loads` the whole reply; a non-list value, or any parse
  error (the inner bare `except:`), yields `[result_text.strip()]`. -/
def extract_information (result_text : String) : List JsonVal :=
  match re_search_bracket result_text with
  | some span =>
    match json_loads span with
    | some v => as_list v
    | none =>
      let lines := extract_lines result_text
      if lines.isEmpty then
        ((py_split ',' result_text).map (fun item => JsonVal.jstr (py_strip item)))
      else lines.map JsonVal.jstr
  | none =>
    match json_loads result_text with
    | some (.jarr xs) => xs
    | some _ => [JsonVal.jstr (py_strip result_text)]
    | none => [JsonVal.jstr (py_strip result_text)]

/-- The `extract_info` tool.  The prompt built from `text` and `info_type`
only feeds the external model; the model round trip is the `reply`
argument (`.error e` models an exception from the client call, caught by
the outer `except Exception` handler).  Returns the
`{"information": [...]}` mapping. -/
def extract_info (reply : Except String String) : List (String × JsonVal) :=
  match reply with
  | .ok result_text =>
    [("information", JsonVal.jarr (extract_information result_text))]
  | .error e =>
    [("information", JsonVal.jarr [JsonVal.jstr ("Error extracting information: " ++ e)])]

/-! ## Search tool (`search_document` in `document_agent.py`) -/

/-- `[item["text"] for item in parsed if "text" in item]`, per item: the
`"text"` entry of a dict item.  (For a non-dict item Python's
`"text" in item` is a substring or element test and the subsequent
indexing raises; no claim exercises non-dict items, which contribute
nothing here.) -/
def item_text : JsonVal → Option JsonVal
  | .jobj kvs => alookup "text" kvs
  | _ => none

/-- `item.get("text", str(item))`.  (Python raises `AttributeError` on a
non-dict item, caught by the outer handler; no claim exercises that
corner, modelled as the stringified item.) -/
def item_text_or_str (item : JsonVal) : JsonVal :=
  match item with
  | .jobj kvs =>
    match alookup "text" kvs with
    | some v => v
    | none => JsonVal.jstr (py_str item)
  | _ => JsonVal.jstr (py_str item)

/-- The parsing chain of `search_document` applied to the model's reply:

* a `[...]` span found: `json.loads` it and take the `"text"` field of each
  element that has one; on `JSONDecodeError` the outer handler returns the
  raw reply as the sole result;
* no span: `json.loads` the whole reply; a list maps each item through
  `item.get("text", str(item))`, a non-list is stringified; on any parse
  error (inner bare `except:`) take all double-quoted substrings, and the
  raw reply if there are none. -/
def search_results (result_text : String) : List JsonVal :=
  match re_search_bracket result_text with
  | some span =>
    match json_loads span with
    | some v => (as_list v).filterMap item_text
    | none => [JsonVal.jstr result_text]
  | none =>
    match json_loads result_text with
    | some (.jarr xs) => xs.map item_text_or_str
    | some v => [JsonVal.jstr (py_str v)]
    | none =>
      let q := findall_quoted result_text
      if q.isEmpty then [JsonVal.jstr result_text]
      else q.map JsonVal.jstr

/-- The `search_document` tool: paragraph splitting and the prompt only
feed the external model; the round trip is the `reply` argument.  Returns
the `{"results": [...]}` mapping. -/
def search_document (reply : Except String String) : List (String × JsonVal) :=
  match reply with
  | .ok result_text =>
    [("results", JsonVal.jarr (search_results result_text))]
  | .error e =>
    [("results", JsonVal.jarr [JsonVal.jstr ("Error searching document: " ++ e)])]

/-! ## Retrieval and catalog tools (`document_agent.py`) -/

/-- The `fetch_document` tool.  `http` models the
`requests.get(url)`/`raise_for_status()` round trip: `.ok body` is the
text of a 2xx response, `.error e` an exception (network failure or
non-2xx status); `now` is `str(datetime.now())`.  Returns the updated
store and the value of the `"content"` field of the result. -/
def fetch_document (s : Store) (url : String) (http : Except String String)
    (now : String) : Store × String :=
  match get_document_by_url s url with
  | some cached => (s, cached.content)
  | none =>
    match http with
    | .ok body =>
      let content := strip_tags body
      ((store_document s url content [("fetched_at", JsonVal.jstr now)]).1, content)
    | .error e => (s, "Error fetching document: " ++ e)

/-- The `get_document` tool: `{"content": ..., "metadata": ...}`, with the
fixed not-found values when the URL is absent. -/
def get_document_tool (s : Store) (url : String) : String × Metadata :=
  match get_document_by_url s url with
  | none => ("Document not found", [])
  | some doc => (doc.content, doc.metadata)

/-- The `list_documents` tool: `{"documents": document_memory.list_documents()}`. -/
def list_documents_tool (s : Store) : List DocListing :=
  list_documents s

/-! ## Sample states used by the witnesses -/

/-- A fresh store: empty index, no content files. -/
def empty_store : Store := ⟨"./document_memory", [], []⟩

/-- A store whose index has an entry but whose content file is missing. -/
def broken_store : Store :=
  ⟨"./document_memory", [("u1", ⟨"http://a", "./document_memory/u1.txt", []⟩)], []⟩

/-! ## Claims about the extraction tool -/

/-- Claim C2 (counterexample): the reply `"item1\nitem2"` has no `[...]`
span and is not JSON, yet `extract_info` returns the single-element list
`["item1\nitem2"]`, not the lines `["item1", "item2"]`: with no span, a
failed `json.loads` of the whole reply is caught by the inner bare
`except:`, which yields `[result_text.strip()]`; the line split lives in
the outer `except json.JSONDecodeError:` and is only reachable from the
`json.loads` of a found span. -/
theorem extract_info_newline_counterexample :
    re_search_bracket "item1\nitem2" = none ∧
    json_loads "item1\nitem2" = none ∧
    extract_information "item1\nitem2" = [JsonVal.jstr "item1\nitem2"] ∧
    extract_information "item1\nitem2" ≠
      [JsonVal.jstr "item1", JsonVal.jstr "item2"] := by
  refine ⟨rfl, rfl, rfl, ?_⟩
  intro h
  rw [show extract_information "item1\nitem2" = [JsonVal.jstr "item1\nitem2"] from rfl] at h
  exact absurd (congrArg List.length h) (by decide)

/-- Claim C2 (amended): a reply with no `[...]` span that is not parseable
as JSON yields the single-element list `[reply.strip()]`; the
line-splitting fallback (non-empty stripped lines, code-fence markers
discarded, then the comma split if that is empty) applies exactly when a
`[...]` span exists but fails to parse as JSON. -/
theorem extract_info_non_json_fallback (r span : String) :
    (re_search_bracket r = none → json_loads r = none →
      extract_information r = [JsonVal.jstr (py_strip r)]) ∧
    (re_search_bracket r = some span → json_loads span = none →
      extract_information r =
        (if (extract_lines r).isEmpty then
          (py_split ',' r).map (fun item => JsonVal.jstr (py_strip item))
         else (extract_lines r).map JsonVal.jstr)) := by
  constructor
  · intro h1 h2
    simp [extract_information, h1, h2]
  · intro h1 h2
    simp [extract_information, h1, h2]

/-- Witness for C2's amended claim: the no-span reply `"item1\nitem2"`
yields itself stripped as a single element, and a reply whose bracketed
span fails to parse is split into non-fence lines. -/
theorem extract_info_non_json_fallback_witness :
    extract_information "item1\nitem2" = [JsonVal.jstr "item1\nitem2"] ∧
    extract_information "```\n[broken\nitem2]\n```" =
      [JsonVal.jstr "[broken", JsonVal.jstr "item2]"] :=
  ⟨(extract_info_non_json_fallback "item1\nitem2" "").1 rfl rfl,
   ((extract_info_non_json_fallback "```\n[broken\nitem2]\n```" "[broken\nitem2]").2
     rfl rfl).trans rfl⟩

/-- Claim C3: `extract_info` is total over every model round trip (the
embedding is a total function, so no exception reaches the caller), its
result is the mapping `{"information": <list>}`, and when the round trip
raised, the list is the single-element error description. -/
theorem extract_info_never_raises (reply : Except String String) :
    ∃ xs : List JsonVal,
      extract_info reply = [("information", JsonVal.jarr xs)] ∧
      alookup "information" (extract_info reply) = some (JsonVal.jarr xs) ∧
      ∀ e, reply = .error e →
        xs = [JsonVal.jstr ("Error extracting information: " ++ e)] := by
  match reply with
  | .ok r =>
    exact ⟨extract_information r, rfl, rfl, fun e h => by cases h⟩
  | .error e =>
    exact ⟨[JsonVal.jstr ("Error extracting information: " ++ e)], rfl, rfl,
      fun e' h => by cases h; rfl⟩

/-- Witness for C3 at a failing round trip. -/
theorem extract_info_never_raises_witness :
    ∃ xs : List JsonVal,
      extract_info (.error "boom") = [("information", JsonVal.jarr xs)] ∧
      alookup "information" (extract_info (.error "boom")) = some (JsonVal.jarr xs) ∧
      ∀ e, (Except.error "boom" : Except String String) = .error e →
        xs = [JsonVal.jstr ("Error extracting information: " ++ e)] :=
  extract_info_never_raises (.error "boom")

/-! ## Claims about the search tool -/

/-- Claim C4 (counterexample): the reply `"[oops] \"q\""` makes JSON
parsing fail (its bracketed span `"[oops]"` is not JSON), yet
`search_document` returns the raw reply, not the quoted substring `"q"`:
the quoted-substring fallback lives in the inner bare `except:` of the
no-span branch, while a failed parse of a found span is caught by the
outer `except json.JSONDecodeError:`, which returns `[result_text]`. -/
theorem search_quoted_fallback_counterexample :
    re_search_bracket "[oops] \"q\"" = some "[oops]" ∧
    json_loads "[oops]" = none ∧
    findall_quoted "[oops] \"q\"" = ["q"] ∧
    search_results "[oops] \"q\"" = [JsonVal.jstr "[oops] \"q\""] ∧
    search_results "[oops] \"q\"" ≠ [JsonVal.jstr "q"] := by
  refine ⟨rfl, rfl, rfl, rfl, ?_⟩
  intro h
  injection h with h1 h2
  injection h1 with h3
  exact absurd h3 (by decide)

/-- Claim C4 (amended): the quoted-substring fallback applies exactly to
replies with no `[...]` span whose whole text fails to parse as JSON —
there, all double-quoted substrings are extracted and the raw reply is
returned only when none exist; a reply whose bracketed span fails to
parse yields the raw reply directly. -/
theorem search_json_failure_fallback (r span : String) :
    (re_search_bracket r = none → json_loads r = none →
      search_results r =
        (if (findall_quoted r).isEmpty then [JsonVal.jstr r]
         else (findall_quoted r).map JsonVal.jstr)) ∧
    (re_search_bracket r = some span → json_loads span = none →
      search_results r = [JsonVal.jstr r]) := by
  constructor
  · intro h1 h2
    simp [search_results, h1, h2]
  · intro h1 h2
    simp [search_results, h1, h2]

/-- Witness for C4's amended claim: a span-free non-JSON reply yields its
quoted substrings; a reply whose span fails to parse yields the raw
reply. -/
theorem search_json_failure_fallback_witness :
    search_results "reply with \"quoted one\" and \"two\"" =
      [JsonVal.jstr "quoted one", JsonVal.jstr "two"] ∧
    search_results "[oops] \"x\"" = [JsonVal.jstr "[oops] \"x\""] :=
  ⟨(search_json_failure_fallback "reply with \"quoted one\" and \"two\"" "").1 rfl rfl,
   (search_json_failure_fallback "[oops] \"x\"" "[oops]").2 rfl rfl⟩

/-- A `{"rating": ..., "text": ...}` object as emitted by the model. -/
def rating_text_item (p : Int × String) : JsonVal :=
  .jobj [("rating", .jnum p.1), ("text", .jstr p.2)]

theorem item_text_rating_text (p : Int × String) :
    item_text (rating_text_item p) = some (JsonVal.jstr p.2) := by
  simp [rating_text_item, item_text, alookup]

theorem filterMap_item_text (items : List (Int × String)) :
    (items.map rating_text_item).filterMap item_text =
      items.map (fun p => JsonVal.jstr p.2) := by
  induction items with
  | nil => rfl
  | cons p rest ih =>
    simp [List.filterMap_cons, item_text_rating_text, ih]

/-- Claim C5: when the bracketed span of the model's reply parses as a
JSON array of `{rating, text}` objects, `search_document` returns the
`text` values in exactly the order they appear, with no re-sorting by
rating. -/
theorem search_preserves_model_order (r span : String) (items : List (Int × String))
    (h1 : re_search_bracket r = some span)
    (h2 : json_loads span = some (.jarr (items.map rating_text_item))) :
    search_results r = items.map (fun p => JsonVal.jstr p.2) := by
  simp only [search_results, h1, h2, as_list]
  exact filterMap_item_text items

/-- Witness for C5 at the spec's example reply: ratings 9 then 4, texts
returned as `["P1", "P2"]` in reply order. -/
theorem search_preserves_model_order_witness :
    search_results "[\x7b\"rating\":9,\"text\":\"P1\"\x7d,\x7b\"rating\":4,\"text\":\"P2\"\x7d]" =
      [JsonVal.jstr "P1", JsonVal.jstr "P2"] :=
  search_preserves_model_order
    "[\x7b\"rating\":9,\"text\":\"P1\"\x7d,\x7b\"rating\":4,\"text\":\"P2\"\x7d]"
    "[\x7b\"rating\":9,\"text\":\"P1\"\x7d,\x7b\"rating\":4,\"text\":\"P2\"\x7d]"
    [((9 : Int), "P1"), ((4 : Int), "P2")] rfl rfl

/-! ## Claims about the retrieval and catalog tools -/

/-- Claim C6: for a URL already in the store, `fetch_document` returns the
cached content unmodified whatever the network would do (no fetch); for a
URL not in the store, a 2xx body has every `<...>` tag span deleted, the
result is stored with a `fetched_at` timestamp in the metadata and
returned; and a second fetch of the same URL is served from the cache,
leaving the store unchanged whatever the network would do. -/
theorem fetch_document_cache_and_store (s : Store) (url : String) :
    (∀ doc http now, get_document_by_url s url = some doc →
      fetch_document s url http now = (s, doc.content)) ∧
    (∀ body now, get_document_by_url s url = none →
      fetch_document s url (.ok body) now =
        ((store_document s url (strip_tags body)
            [("fetched_at", JsonVal.jstr now)]).1, strip_tags body)) ∧
    (∀ body now http2 now2, get_document_by_url s url = none →
      fetch_document (fetch_document s url (.ok body) now).1 url http2 now2 =
        ((fetch_document s url (.ok body) now).1, strip_tags body)) := by
  refine ⟨?_, ?_, ?_⟩
  · intro doc http now h
    simp [fetch_document, h]
  · intro body now h
    simp [fetch_document, h]
  · intro body now http2 now2 h
    simp [fetch_document, h, get_by_url_store]

/-- Witness for C6: a 200 body `"<b>hi</b>"` for a new URL is stripped to
`"hi"`, stored, and returned; a second fetch with no working network still
returns `"hi"` from the cache. -/
theorem fetch_document_cache_and_store_witness :
    fetch_document empty_store "http://x" (.ok "<b>hi</b>") "t0" =
      ((store_document empty_store "http://x" "hi"
          [("fetched_at", JsonVal.jstr "t0")]).1, "hi") ∧
    fetch_document (fetch_document empty_store "http://x" (.ok "<b>hi</b>") "t0").1
        "http://x" (.error "no network call configured") "t1" =
      ((fetch_document empty_store "http://x" (.ok "<b>hi</b>") "t0").1, "hi") :=
  ⟨(fetch_document_cache_and_store empty_store "http://x").2.1 "<b>hi</b>" "t0" rfl,
   (fetch_document_cache_and_store empty_store "http://x").2.2 "<b>hi</b>" "t0"
     (.error "no network call configured") "t1" rfl⟩

/-- Claim C7: when the URL is not cached and the network round trip fails
(network failure or non-2xx status, both modelled as `.error e`),
`fetch_document` returns normally with a descriptive error string as the
`"content"` field. -/
theorem fetch_document_error_result (s : Store) (url e now : String)
    (h : get_document_by_url s url = none) :
    fetch_document s url (.error e) now = (s, "Error fetching document: " ++ e) := by
  simp [fetch_document, h]

/-- Witness for C7 at a concrete failing fetch. -/
theorem fetch_document_error_result_witness :
    fetch_document empty_store "http://down" (.error "connection refused") "t0" =
      (empty_store, "Error fetching document: connection refused") :=
  fetch_document_error_result empty_store "http://down" "connection refused" "t0" rfl

/-- Claim C8: listing is computed from the index alone — changing the
content files never changes the listing — and an index entry whose content
file is missing or unreadable still appears in the listing while
`get_document` on its id returns not-found. -/
theorem list_documents_reads_no_content :
    (∀ s files', list_documents { s with files := files' } = list_documents s) ∧
    (∀ s doc_id info, alookup doc_id s.index = some info →
      alookup info.path s.files = none →
      (⟨doc_id, info.url, info.metadata⟩ : DocListing) ∈ list_documents s ∧
      get_document s doc_id = none) := by
  constructor
  · intro s files'
    rfl
  · intro s doc_id info h1 h2
    constructor
    · exact List.mem_map.2 ⟨(doc_id, info), alookup_mem h1, rfl⟩
    · simp [get_document, h1, h2]

/-- Witness for C8: a store whose only entry has no content file on disk
still lists that entry, and `get_document` on it is not-found. -/
theorem list_documents_reads_no_content_witness :
    (⟨"u1", "http://a", []⟩ : DocListing) ∈ list_documents broken_store ∧
    get_document broken_store "u1" = none :=
  list_documents_reads_no_content.2 broken_store "u1"
    ⟨"http://a", "./document_memory/u1.txt", []⟩ rfl rfl

/-- Claim C9: the `get_document` tool always returns both fields: the
fixed pair `("Document not found", {})` for an unknown URL, and the stored
content and metadata for a stored URL. -/
theorem get_document_tool_total_fields (s : Store) (url : String) :
    (get_document_by_url s url = none →
      get_document_tool s url = ("Document not found", [])) ∧
    (∀ c m, get_document_tool (store_document s url c m).1 url = (c, m)) := by
  constructor
  · intro h
    simp [get_document_tool, h]
  · intro c m
    simp [get_document_tool, get_by_url_store]

/-- Witness for C9: unknown URL on a fresh store, then the same URL after a
store. -/
theorem get_document_tool_total_fields_witness :
    get_document_tool empty_store "http://y" = ("Document not found", []) ∧
    get_document_tool (store_document empty_store "http://y" "body"
        [("k", JsonVal.jstr "v")]).1 "http://y" = ("body", [("k", JsonVal.jstr "v")]) :=
  ⟨(get_document_tool_total_fields empty_store "http://y").1 rfl,
   (get_document_tool_total_fields empty_store "http://y").2 "body" [("k", JsonVal.jstr "v")]⟩

/-- Claim C10: a failed fetch of an uncached URL leaves the store exactly
as it was — in particular no index entry or content file for that URL —
and a subsequent lookup of that URL is still not-found. -/
theorem fetch_error_never_cached (s : Store) (url e now : String)
    (h : get_document_by_url s url = none) :
    (fetch_document s url (.error e) now).1 = s ∧
    get_document_by_url (fetch_document s url (.error e) now).1 url = none := by
  constructor
  · simp [fetch_document, h]
  · simp [fetch_document, h]

/-- Witness for C10 at a concrete failing fetch. -/
theorem fetch_error_never_cached_witness :
    (fetch_document empty_store "http://z" (.error "timeout") "t0").1 = empty_store ∧
    get_document_by_url (fetch_document empty_store "http://z" (.error "timeout") "t0").1
      "http://z" = none :=
  fetch_error_never_cached empty_store "http://z" "timeout" "t0" rfl
